import Mathlib

/-!
Verification of the Sololom conversation engine against its source.

The definitions below are shallow embeddings of the JavaScript source:
  * `src/utils/helpers.js` — provider resolution (`getProviderFromModel`);
  * background service worker — its own `getProviderFromModel` and
    `saveConversation` handler;
  * `src/services/storage.js` — `saveConversation`, `importData` (conversation
    merge step);
  * `src/services/settings.js` — `updateGlobalSettings`;
  * `src/services/api.js` — `getLLMResponse` (pre-network credential gate) and
    `extractContentFromResponse`;
  * `src/components/chat/Chat.js` `sendMessage` (identical trimming code also
    appears in `src/fullpage/fullpage.js` `sendMessage`) — guard, context-window
    trimming, request assembly, and post-response handling.

JavaScript idioms are embedded as follows: dynamic objects with a fixed key set
become structures, objects used as partial updates become structures of
`Option` fields, arrays become lists, `Array.prototype.slice(0, n)` becomes
`List.take n`, `slice(-n)` (for `n > 0`) becomes `takeLast`, falsy checks on
strings/numbers become comparisons with `""`/`0`, and thrown `Error` messages
become `Except String` / `Option String` values.
-/

namespace Sololom

/-- Message roles, `{ role: 'system' | 'user' | 'assistant' }`. -/
inductive Role where
  | system
  | user
  | assistant
deriving DecidableEq, Repr

/-- A chat message `{ role, content }`. -/
structure Message where
  role : Role
  content : String
deriving DecidableEq, Repr

/-- Provider identifiers returned by `getProviderFromModel` (the strings
`'openai' | 'anthropic' | 'mistral' | 'openrouter' | 'unknown'`). -/
inductive Provider where
  | openai
  | anthropic
  | mistral
  | openrouter
  | unknown
deriving DecidableEq, Repr

/-- The provider identifier as the string the source interpolates into
error messages. -/
def providerName : Provider → String
  | .openai => "openai"
  | .anthropic => "anthropic"
  | .mistral => "mistral"
  | .openrouter => "openrouter"
  | .unknown => "unknown"

/-- Embeds JavaScript `String.prototype.startsWith`. -/
def jsStartsWith (s pre : String) : Bool :=
  pre.data.isPrefixOf s.data

/-- Whether `sub` occurs as a contiguous run inside `l`. -/
def containsSub (sub : List Char) : List Char → Bool
  | [] => sub.isEmpty
  | c :: rest => sub.isPrefixOf (c :: rest) || containsSub sub rest

/-- Embeds JavaScript `String.prototype.includes` (substring containment). -/
def jsIncludes (s sub : String) : Bool :=
  containsSub sub.data s.data

/-- Embeds JavaScript `String.prototype.trim`. -/
def jsTrim (s : String) : String :=
  ⟨((s.data.dropWhile Char.isWhitespace).reverse.dropWhile Char.isWhitespace).reverse⟩

/-- `getProviderFromModel` from `src/utils/helpers.js` (lines 156–161):
`gpt` → openai, `claude` → anthropic, `mistral` → mistral, otherwise
`'unknown'`. -/
def getProviderFromModel (model : String) : Provider :=
  if jsStartsWith model "gpt" then .openai
  else if jsStartsWith model "claude" then .anthropic
  else if jsStartsWith model "mistral" then .mistral
  else .unknown

/-- The aggregator condition of the background worker's `getProviderFromModel`:
`model.startsWith('openrouter/') || model.includes('llama') || ... `. -/
def openrouterCond (model : String) : Bool :=
  jsStartsWith model "openrouter/" || jsIncludes model "llama" ||
    jsIncludes model "gemini" || jsIncludes model "meta" ||
    jsIncludes model "cohere" || jsIncludes model "palm"

/-- `getProviderFromModel` from the background service worker (lines 129–144):
like the helpers version but with an extra aggregator branch before the
`'unknown'` fallback. -/
def bgGetProviderFromModel (model : String) : Provider :=
  if jsStartsWith model "gpt" then .openai
  else if jsStartsWith model "claude" then .anthropic
  else if jsStartsWith model "mistral" then .mistral
  else if openrouterCond model then .openrouter
  else .unknown

/-- Embeds `Array.prototype.slice(-n)` for `n > 0`: the last `n` elements. -/
def takeLast (n : Nat) (l : List α) : List α :=
  l.drop (l.length - n)

/-- The context-window trim from `Chat.sendMessage`
(`src/components/chat/Chat.js` lines 158–175; the identical code appears at
`src/fullpage/fullpage.js` lines 466–483):

```js
if (contextLimit > 0 && historyMessages.length > contextLimit) {
  const systemMessage = historyMessages.find(m => m.role === 'system');
  historyMessages = historyMessages
    .filter(m => m.role !== 'system')
    .slice(-contextLimit);
  if (systemMessage) historyMessages.unshift(systemMessage);
}
```
-/
def trimHistory (history : List Message) (contextLimit : Nat) : List Message :=
  if 0 < contextLimit ∧ contextLimit < history.length then
    match history.find? (fun m => decide (m.role = Role.system)) with
    | some m =>
        m :: takeLast contextLimit
          (history.filter (fun m => !decide (m.role = Role.system)))
    | none =>
        takeLast contextLimit
          (history.filter (fun m => !decide (m.role = Role.system)))
  else history

/-- Request-message assembly of `Chat.sendMessage` (lines 146–189): push the
system prompt when non-empty, append the trimmed history, then push the new
user message. -/
def buildRequestMessages (systemPrompt : String) (conversation : List Message)
    (contextLimit : Nat) (userMessage : String) : List Message :=
  (if systemPrompt = "" then [] else [⟨Role.system, systemPrompt⟩]) ++
    trimHistory conversation contextLimit ++ [⟨Role.user, userMessage⟩]

/-- The `message` object inside an OpenAI-style `choices[0]`; its `content`
field may be absent. -/
structure ChoiceMessage where
  content : Option String
deriving DecidableEq, Repr

/-- One entry of an OpenAI-style `choices` array. -/
structure Choice where
  message : Option ChoiceMessage
deriving DecidableEq, Repr

/-- One entry of an Anthropic-style `content` array. -/
structure ContentBlock where
  text : Option String
deriving DecidableEq, Repr

/-- A provider success payload as consumed by `extractContentFromResponse`:
either shape's top-level field may be absent (`none`). -/
structure ApiResponse where
  choices : Option (List Choice) := none
  content : Option (List ContentBlock) := none
deriving DecidableEq, Repr

/-- `extractContentFromResponse` from `src/services/api.js` (lines 242–257).
Optional chaining (`response.choices?.[0]?.message?.content || ''`) becomes
`Option.bind` with `getD ""`; a missing `response` argument is `none`. -/
def extractContentFromResponse (response : Option ApiResponse)
    (provider : Provider) : String :=
  match response with
  | none => ""
  | some r =>
    match provider with
    | .openai => ((((r.choices.bind List.head?).bind Choice.message).bind ChoiceMessage.content).getD "")
    | .anthropic => (((r.content.bind List.head?).bind ContentBlock.text).getD "")
    | .mistral => ((((r.choices.bind List.head?).bind Choice.message).bind ChoiceMessage.content).getD "")
    | .openrouter => ((((r.choices.bind List.head?).bind Choice.message).bind ChoiceMessage.content).getD "")
    | .unknown => ""

/-- The expected reply field of an OpenAI-shaped response
(`choices[0].message.content`) is absent: no `choices` array, an empty one, a
first choice without `message`, or a message without `content`. -/
def choicesReplyAbsent (r : ApiResponse) : Prop :=
  r.choices = none ∨ r.choices = some [] ∨
    ∃ c rest, r.choices = some (c :: rest) ∧
      (c.message = none ∨ ∃ m, c.message = some m ∧ m.content = none)

/-- The expected reply field of an Anthropic-shaped response
(`content[0].text`) is absent: no `content` array, an empty one, or a first
block without `text`. -/
def anthropicReplyAbsent (r : ApiResponse) : Prop :=
  r.content = none ∨ r.content = some [] ∨
    ∃ b rest, r.content = some (b :: rest) ∧ b.text = none

/-- For each known provider, the shapes in which its expected reply field is
absent from a success response (openai, mistral and openrouter read
`choices[0].message.content`; anthropic reads `content[0].text`). -/
def replyFieldAbsent (r : ApiResponse) : Provider → Prop
  | .openai => choicesReplyAbsent r
  | .anthropic => anthropicReplyAbsent r
  | .mistral => choicesReplyAbsent r
  | .openrouter => choicesReplyAbsent r
  | .unknown => False

/-- The in-memory state of a `Chat` session that `sendMessage` touches:
`this.conversation` and `this.isProcessing`. -/
structure ChatState where
  conversation : List Message
  isProcessing : Bool
deriving DecidableEq, Repr

/-- The synchronous prefix of `Chat.sendMessage` (lines 123–195): trim the
input, reject when it is empty or a send is in flight (`none` request),
otherwise build the request payload from the pre-send conversation, append the
user message to the conversation, and mark the session as processing. -/
def sendStart (systemPrompt : String) (contextLimit : Nat) (st : ChatState)
    (input : String) : ChatState × Option (List Message) :=
  let userMessage := jsTrim input
  if userMessage = "" ∨ st.isProcessing then (st, none)
  else
    let messages := buildRequestMessages systemPrompt st.conversation contextLimit userMessage
    ({ conversation := st.conversation ++ [⟨Role.user, userMessage⟩],
       isProcessing := true }, some messages)

/-- The continuation of `Chat.sendMessage` after the awaited response settles:
on success the assistant reply is appended (lines 212–230), on a thrown error
only the error is displayed (lines 234–241); the `finally` block (lines
242–246) clears `isProcessing` in both cases. -/
def sendResolve (st : ChatState) (outcome : Except String String) : ChatState :=
  match outcome with
  | .ok reply =>
      { conversation := st.conversation ++ [⟨Role.assistant, reply⟩],
        isProcessing := false }
  | .error _ => { st with isProcessing := false }

/-- The pre-network part of `getLLMResponse` from `src/services/api.js`
(lines 20–49): resolve the provider from the model, read the stored key
(absent keys read as `""`), throw `API key not configured …` when the key is
empty, and throw `Unsupported model provider …` from the switch default. -/
def getLLMResponseKeyCheck (apiKeys : Provider → String) (model : String) :
    Except String Provider :=
  let provider := getProviderFromModel model
  let apiKey := apiKeys provider
  if apiKey = "" then
    .error ("API key not configured for " ++ providerName provider ++ ". Please check settings.")
  else
    match provider with
    | .unknown => .error ("Unsupported model provider: " ++ providerName provider)
    | p => .ok p

/-- `Chat.sendMessage` end to end (lines 123–247), with the network abstracted
as a function from the request payload to the provider's reply or a thrown
error. Returns the final session state, the list of network requests actually
issued, and the displayed error message if any. The model fallback
`this.chatSettings.model || 'gpt-3.5-turbo'` (line 199) applies to the API
call; the extraction provider is computed from the un-defaulted
`this.chatSettings.model` (line 209); an empty extracted reply takes the
`throw new Error('Invalid response format from API')` branch (line 232). -/
def sendMessageAttempt (apiKeys : Provider → String) (model systemPrompt : String)
    (contextLimit : Nat) (st : ChatState) (input : String)
    (network : List Message → Except String ApiResponse) :
    ChatState × List (List Message) × Option String :=
  match sendStart systemPrompt contextLimit st input with
  | (st1, none) => (st1, [], none)
  | (st1, some messages) =>
    let effModel := if model = "" then "gpt-3.5-turbo" else model
    match getLLMResponseKeyCheck apiKeys effModel with
    | .error e => (sendResolve st1 (.error e), [], some e)
    | .ok _ =>
      match network messages with
      | .error e => (sendResolve st1 (.error e), [messages], some e)
      | .ok resp =>
        let provider := getProviderFromModel model
        let assistantMessage := extractContentFromResponse (some resp) provider
        if assistantMessage = "" then
          (sendResolve st1 (.error "Invalid response format from API"), [messages],
            some "Invalid response format from API")
        else
          (sendResolve st1 (.ok assistantMessage), [messages], none)

/-- A stored conversation record. Only the fields the store logic inspects are
kept (`id`, `timestamp`); `title` stands for the remaining payload. A missing
`id` is the empty string and a missing `timestamp` is `0` (both falsy in the
source). -/
structure Conversation where
  id : String
  timestamp : Nat
  title : String
deriving DecidableEq, Repr

/-- Embeds `conversations.findIndex(c => c.id === conversation.id)`
(`-1` becomes `none`). -/
def findIndexById (targetId : String) : List Conversation → Option Nat
  | [] => none
  | c :: rest =>
    if c.id = targetId then some 0
    else (findIndexById targetId rest).map (· + 1)

/-- The defaulting at the head of `saveConversation`
(`src/services/storage.js` lines 138–145): a missing id becomes
`Date.now().toString()` and a missing timestamp becomes `Date.now()`. -/
def normalizeConversation (now : Nat) (conversation : Conversation) : Conversation :=
  let conv1 := if conversation.id = "" then { conversation with id := toString now } else conversation
  if conv1.timestamp = 0 then { conv1 with timestamp := now } else conv1

/-- `saveConversation` from `src/services/storage.js` (lines 136–181): default
the id and timestamp, replace the record at the index found by id — or
prepend when the id is new — then truncate with `slice(0, maxConversations)`
where `globalSettings.maxConversations || 100` supplies the cap. -/
def svcSaveConversation (now : Nat) (conversation : Conversation)
    (conversations : List Conversation) (maxConversations : Nat) : List Conversation :=
  let conv := normalizeConversation now conversation
  let maxC := if maxConversations = 0 then 100 else maxConversations
  let updated :=
    match findIndexById conv.id conversations with
    | some i => conversations.take i ++ conv :: conversations.drop (i + 1)
    | none => conv :: conversations
  updated.take maxC

/-- `saveConversation` from the background service worker (lines 251–272):
default the timestamp, unconditionally prepend (`[conversation,
...conversations]`, no id lookup), truncate to
`chatSettings.maxHistoryItems || 100`. -/
def bgSaveConversation (now : Nat) (conversation : Conversation)
    (conversations : List Conversation) (maxHistoryItems : Nat) : List Conversation :=
  let conv := if conversation.timestamp = 0 then { conversation with timestamp := now } else conversation
  let maxHistory := if maxHistoryItems = 0 then 100 else maxHistoryItems
  (conv :: conversations).take maxHistory

/-- The conversation merge of `importData` from `src/services/storage.js`
(lines 343–360, non-overwrite branch): keep the current records and append
the imported ones whose ids are new; the result is written to storage as is,
with no cap applied. -/
def importMergeConversations (current imported : List Conversation) : List Conversation :=
  let existingIds := current.map (·.id)
  let newConversations := imported.filter (fun c => !existingIds.contains c.id)
  current ++ newConversations

/-- The persisted `globalSettings` record (`DEFAULT_GLOBAL_SETTINGS` lists its
fields). `apiKeys` is modelled as a total map from provider to key; a key the
stored object lacks reads as `""` (both are falsy/empty to every consumer). -/
structure GlobalSettings where
  theme : String
  defaultModel : String
  apiKeys : Provider → String
  saveConversations : Bool
  maxConversations : Nat
  fontSize : String
  compactMode : Bool
  contextWindow : Nat

/-- A partial update object passed to `updateGlobalSettings`: absent fields
are `none`; a present `apiKeys` object is itself a partial map. -/
structure GlobalSettingsPatch where
  theme : Option String := none
  defaultModel : Option String := none
  apiKeys : Option (Provider → Option String) := none
  saveConversations : Option Bool := none
  maxConversations : Option Nat := none
  fontSize : Option String := none
  compactMode : Option Bool := none
  contextWindow : Option Nat := none

/-- `DEFAULT_GLOBAL_SETTINGS` from `src/services/storage.js` (lines 10–23);
the `apiKeys` defaults are all `''`. -/
def DEFAULT_GLOBAL_SETTINGS : GlobalSettings :=
  { theme := "light"
    defaultModel := "gpt-3.5-turbo"
    apiKeys := fun _ => ""
    saveConversations := true
    maxConversations := 100
    fontSize := "medium"
    compactMode := false
    contextWindow := 0 }

/-- `saveGlobalSettings` from `src/services/storage.js` (lines 57–76) spreads
the incoming settings over `DEFAULT_GLOBAL_SETTINGS` (and the incoming
`apiKeys` over the default keys). In this total model every field and key is
present, so each default is overridden and the stored record equals the
argument field by field. -/
def saveGlobalSettings (settings : GlobalSettings) : GlobalSettings :=
  { theme := settings.theme
    defaultModel := settings.defaultModel
    apiKeys := fun p => settings.apiKeys p
    saveConversations := settings.saveConversations
    maxConversations := settings.maxConversations
    fontSize := settings.fontSize
    compactMode := settings.compactMode
    contextWindow := settings.contextWindow }

/-- `updateGlobalSettings` from `src/services/settings.js` (lines 30–52):
spread the patch over the current settings (`{...currentSettings,
...settings}`), with `apiKeys: {...currentSettings.apiKeys,
...(settings.apiKeys || {})}` merged key by key, then persist through
`saveGlobalSettings`. -/
def updateGlobalSettings (currentSettings : GlobalSettings)
    (settings : GlobalSettingsPatch) : GlobalSettings :=
  let updatedSettings : GlobalSettings :=
    { theme := settings.theme.getD currentSettings.theme
      defaultModel := settings.defaultModel.getD currentSettings.defaultModel
      apiKeys := fun p =>
        match settings.apiKeys with
        | none => currentSettings.apiKeys p
        | some patch => (patch p).getD (currentSettings.apiKeys p)
      saveConversations := settings.saveConversations.getD currentSettings.saveConversations
      maxConversations := settings.maxConversations.getD currentSettings.maxConversations
      fontSize := settings.fontSize.getD currentSettings.fontSize
      compactMode := settings.compactMode.getD currentSettings.compactMode
      contextWindow := settings.contextWindow.getD currentSettings.contextWindow }
  saveGlobalSettings updatedSettings

end Sololom

namespace Sololom

/-- A list is unchanged by `slice(-n)` when it has at most `n` elements. -/
theorem takeLast_of_length_le {l : List α} {n : Nat} (h : l.length ≤ n) :
    takeLast n l = l := by
  unfold takeLast
  rw [Nat.sub_eq_zero_of_le h, List.drop_zero]

/-- `slice(-n)` returns at most `n` elements. -/
theorem takeLast_length_le (l : List α) (n : Nat) : (takeLast n l).length ≤ n := by
  unfold takeLast
  rw [List.length_drop]
  omega

/-- When `findIndex` misses, no stored record carries the id. -/
theorem findIndexById_none (targetId : String) :
    ∀ l : List Conversation, findIndexById targetId l = none →
      ∀ c ∈ l, c.id ≠ targetId := by
  intro l
  induction l with
  | nil => intro _ c hc; cases hc
  | cons a rest ih =>
    intro h c hc
    simp only [findIndexById] at h
    by_cases ha : a.id = targetId
    · rw [if_pos ha] at h; cases h
    · rw [if_neg ha] at h
      rcases List.mem_cons.mp hc with rfl | hc'
      · exact ha
      · cases hr : findIndexById targetId rest with
        | none => exact ih hr c hc'
        | some j => rw [hr] at h; cases h

/-- When a stored record carries the id, `findIndex` hits. -/
theorem findIndexById_some_of_mem (targetId : String) :
    ∀ l : List Conversation, targetId ∈ l.map (·.id) →
      ∃ i, findIndexById targetId l = some i := by
  intro l
  induction l with
  | nil => intro h; cases h
  | cons a rest ih =>
    intro h
    by_cases ha : a.id = targetId
    · exact ⟨0, by simp [findIndexById, ha]⟩
    · rcases List.mem_cons.mp h with h' | h'
      · exact absurd h'.symm ha
      · obtain ⟨j, hj⟩ := ih h'
        exact ⟨j + 1, by simp [findIndexById, ha, hj]⟩

/-- Replacing the record `findIndex` located with one carrying the same id
leaves the sequence of stored ids unchanged. -/
theorem replace_found_map_id (conv : Conversation) :
    ∀ (l : List Conversation) (i : Nat), findIndexById conv.id l = some i →
      (l.take i ++ conv :: l.drop (i + 1)).map (·.id) = l.map (·.id) := by
  intro l
  induction l with
  | nil => intro i h; cases h
  | cons a rest ih =>
    intro i h
    simp only [findIndexById] at h
    by_cases ha : a.id = conv.id
    · rw [if_pos ha] at h
      injection h with h
      subst h
      simp [ha]
    · rw [if_neg ha] at h
      cases hr : findIndexById conv.id rest with
      | none => rw [hr] at h; cases h
      | some j =>
        rw [hr] at h
        simp only [Option.map_some'] at h
        injection h with h
        subst h
        simp only [List.take_succ_cons, List.drop_succ_cons, List.cons_append,
          List.map_cons]
        rw [ih j hr]

/-- A pointwise-identity replacement map is the identity. -/
theorem map_replace_id_of_not_mem (c : Conversation) :
    ∀ l : List Conversation, (∀ x ∈ l, x.id ≠ c.id) →
      l.map (fun x => if x.id = c.id then c else x) = l := by
  intro l
  induction l with
  | nil => intro _; rfl
  | cons a rest ih =>
    intro h
    simp only [List.map_cons, if_neg (h a (List.mem_cons_self a rest))]
    rw [ih (fun x hx => h x (List.mem_cons_of_mem a hx))]

/-- On an id-unique store, the `findIndex`-guided replacement is the pointwise
replacement by id. -/
theorem replace_found_eq_map (c : Conversation) :
    ∀ l : List Conversation, (l.map (·.id)).Nodup →
      ∀ i, findIndexById c.id l = some i →
        l.take i ++ c :: l.drop (i + 1)
          = l.map (fun x => if x.id = c.id then c else x) := by
  intro l
  induction l with
  | nil => intro _ i h; cases h
  | cons a rest ih =>
    intro hnd i h
    simp only [findIndexById] at h
    simp only [List.map_cons, List.nodup_cons] at hnd
    by_cases ha : a.id = c.id
    · rw [if_pos ha] at h
      injection h with h
      subst h
      simp only [List.take_zero, List.drop_succ_cons, List.drop_zero,
        List.nil_append, List.map_cons, if_pos ha]
      rw [map_replace_id_of_not_mem c rest]
      intro x hx hxc
      exact hnd.1 (ha ▸ hxc ▸ List.mem_map_of_mem (·.id) hx)
    · rw [if_neg ha] at h
      cases hr : findIndexById c.id rest with
      | none => rw [hr] at h; cases h
      | some j =>
        rw [hr] at h
        simp only [Option.map_some'] at h
        injection h with h
        subst h
        simp only [List.take_succ_cons, List.drop_succ_cons, List.cons_append,
          List.map_cons, if_neg ha]
        rw [ih hnd.2 j hr]

/-- When the guard `contextLimit > 0 && length > contextLimit` fails the trim
leaves the history untouched. -/
theorem trimHistory_noop (history : List Message) (limit : Nat)
    (h : ¬ (0 < limit ∧ limit < history.length)) :
    trimHistory history limit = history := by
  simp [trimHistory, h]

/-- Active trim, no system message found. -/
theorem trimHistory_pos_none (history : List Message) (limit : Nat)
    (hl0 : 0 < limit) (hlen : limit < history.length)
    (hfind : history.find? (fun m => decide (m.role = Role.system)) = none) :
    trimHistory history limit
      = takeLast limit (history.filter (fun m => !decide (m.role = Role.system))) := by
  simp [trimHistory, hl0, hlen, hfind]

/-- Active trim, a system message found. -/
theorem trimHistory_pos_some (history : List Message) (limit : Nat) (m : Message)
    (hl0 : 0 < limit) (hlen : limit < history.length)
    (hfind : history.find? (fun m => decide (m.role = Role.system)) = some m) :
    trimHistory history limit
      = m :: takeLast limit (history.filter (fun m => !decide (m.role = Role.system))) := by
  simp [trimHistory, hl0, hlen, hfind]

/-- The stored-id sequence stays duplicate-free through the lookup-then-write
core of the storage service's `saveConversation`, whatever the incoming
record. -/
theorem save_core_nodup (c : Conversation) (store : List Conversation) (n : Nat)
    (h : (store.map (·.id)).Nodup) :
    ((List.take n
        (match findIndexById c.id store with
         | some i => store.take i ++ c :: store.drop (i + 1)
         | none => c :: store)).map (·.id)).Nodup := by
  cases hfi : findIndexById c.id store with
  | some i =>
    simp only [hfi]
    rw [List.map_take, replace_found_map_id c store i hfi]
    exact List.Nodup.sublist (List.take_sublist _ _) h
  | none =>
    simp only [hfi]
    rw [List.map_take]
    refine List.Nodup.sublist (List.take_sublist _ _) ?_
    simp only [List.map_cons, List.nodup_cons]
    refine ⟨?_, h⟩
    intro hmem
    obtain ⟨x, hx, hxid⟩ := List.mem_map.mp hmem
    exact findIndexById_none c.id store hfi x hx hxid

/-- Claim C2, counterexample: with model `"gpt-4"`, an empty `openai` key, an
empty conversation and input `"hi"`, the send fails before any network call —
but the conversation does NOT remain empty: the user message was appended
(line 192) before the key check inside `getLLMResponse` threw. -/
theorem send_missing_key_conversation_nonempty :
    (sendMessageAttempt (fun _ => "") "gpt-4" "" 0 ⟨[], false⟩ "hi"
        (fun _ => .error "net")).1.conversation = [⟨Role.user, "hi"⟩] ∧
    (sendMessageAttempt (fun _ => "") "gpt-4" "" 0 ⟨[], false⟩ "hi"
        (fun _ => .error "net")).1.conversation ≠ [] := by
  constructor <;> decide

/-- Claim C2 (amended): for a session with empty conversation, model
`"gpt-4"` and an empty stored `openai` key, `send("hi")` fails with the
missing-credential error before any network call is made (the issued-request
list is empty whatever the network would answer), and the conversation ends
holding exactly the already-appended user message. -/
theorem send_missing_key_fails_pre_network
    (network : List Message → Except String ApiResponse) :
    sendMessageAttempt (fun _ => "") "gpt-4" "" 0 ⟨[], false⟩ "hi" network
      = (⟨[⟨Role.user, "hi"⟩], false⟩, [],
          some "API key not configured for openai. Please check settings.") := rfl

/-- Claim C3, counterexample: routing the same conversation twice through the
background dispatcher's `saveConversation` handler leaves two records with
id `"1"` in the stored collection. -/
theorem bg_save_creates_duplicate_ids :
    ¬ (((bgSaveConversation 5 ⟨"1", 5, "t"⟩
          (bgSaveConversation 5 ⟨"1", 5, "t"⟩ [] 100) 100).map (·.id)).Nodup) := by
  decide

/-- Claim C3 (amended): the storage service's `saveConversation` preserves
id-uniqueness of the stored collection (the background dispatcher's handler
does not, as it prepends without any id lookup). -/
theorem svcSave_preserves_unique_ids (now : Nat) (conv : Conversation)
    (store : List Conversation) (maxC : Nat)
    (h : (store.map (·.id)).Nodup) :
    ((svcSaveConversation now conv store maxC).map (·.id)).Nodup :=
  save_core_nodup (normalizeConversation now conv) store
    (if maxC = 0 then 100 else maxC) h

/-- Claim C3 witness. -/
theorem svcSave_preserves_unique_ids_witness :
    (([⟨"1", 1, "a"⟩, ⟨"2", 2, "b"⟩] : List Conversation).map (·.id)).Nodup ∧
    ((svcSaveConversation 9 ⟨"3", 9, "c"⟩ [⟨"1", 1, "a"⟩, ⟨"2", 2, "b"⟩] 100).map (·.id)).Nodup :=
  ⟨by decide, svcSave_preserves_unique_ids 9 ⟨"3", 9, "c"⟩ [⟨"1", 1, "a"⟩, ⟨"2", 2, "b"⟩] 100 (by decide)⟩

/-- Claim C4, counterexample: with `maxStoredConversations = 1`, importing one
new conversation alongside one current record leaves 2 stored records — the
data-import merge path writes the concatenation with no cap applied. -/
theorem import_merge_exceeds_cap :
    (importMergeConversations [⟨"1", 1, "a"⟩] [⟨"2", 2, "b"⟩]).length = 2 ∧
    ¬ ((importMergeConversations [⟨"1", 1, "a"⟩] [⟨"2", 2, "b"⟩]).length ≤ 1) := by
  constructor <;> decide

/-- Claim C4 (amended): every write through the storage service's
`saveConversation` leaves the stored collection at no more than the effective
cap (`maxConversations`, defaulting to 100 when unset); the data-import merge
is not truncated and can exceed the cap. -/
theorem svcSave_length_le_cap (now : Nat) (conv : Conversation)
    (store : List Conversation) (maxC : Nat) :
    (svcSaveConversation now conv store maxC).length
      ≤ (if maxC = 0 then 100 else maxC) := by
  unfold svcSaveConversation
  exact List.length_take_le _ _

/-- Claim C5, counterexample: upserting an updated copy of the record with id
`"2"` into the two-record store leaves it at its old position (index 1); the
front of the collection is still the record with id `"1"`, so the update is
not re-ordered to the front. -/
theorem svcSave_update_not_moved_to_front :
    svcSaveConversation 9 ⟨"2", 9, "upd"⟩ [⟨"1", 1, "a"⟩, ⟨"2", 2, "b"⟩] 100
      = [⟨"1", 1, "a"⟩, ⟨"2", 9, "upd"⟩] ∧
    (svcSaveConversation 9 ⟨"2", 9, "upd"⟩ [⟨"1", 1, "a"⟩, ⟨"2", 2, "b"⟩] 100).head?
      ≠ some ⟨"2", 9, "upd"⟩ := by
  constructor <;> decide

/-- Claim C5 (amended): on an id-unique store within the effective cap,
upserting a conversation whose id already exists (with its id and timestamp
set) replaces that record in place — same position, every other record
unchanged, nothing evicted — rather than moving it to the front. -/
theorem svcSave_update_in_place (now : Nat) (conv : Conversation)
    (store : List Conversation) (maxC : Nat)
    (hid : conv.id ≠ "") (hts : conv.timestamp ≠ 0)
    (hnd : (store.map (·.id)).Nodup)
    (hlen : store.length ≤ (if maxC = 0 then 100 else maxC))
    (hmem : conv.id ∈ store.map (·.id)) :
    svcSaveConversation now conv store maxC
      = store.map (fun x => if x.id = conv.id then conv else x) := by
  obtain ⟨i, hi⟩ := findIndexById_some_of_mem conv.id store hmem
  have hnorm : normalizeConversation now conv = conv := by
    simp [normalizeConversation, hid, hts]
  show List.take (if maxC = 0 then 100 else maxC)
      (match findIndexById (normalizeConversation now conv).id store with
       | some i => store.take i ++ (normalizeConversation now conv) :: store.drop (i + 1)
       | none => (normalizeConversation now conv) :: store)
    = store.map (fun x => if x.id = conv.id then conv else x)
  rw [hnorm]
  simp only [hi]
  rw [replace_found_eq_map conv store hnd i hi]
  exact List.take_of_length_le (by rw [List.length_map]; exact hlen)

/-- Claim C5 witness. -/
theorem svcSave_update_in_place_witness :
    (⟨"2", 9, "upd"⟩ : Conversation).id ≠ "" ∧
    (⟨"2", 9, "upd"⟩ : Conversation).timestamp ≠ 0 ∧
    (([⟨"1", 1, "a"⟩, ⟨"2", 2, "b"⟩] : List Conversation).map (·.id)).Nodup ∧
    svcSaveConversation 9 ⟨"2", 9, "upd"⟩ [⟨"1", 1, "a"⟩, ⟨"2", 2, "b"⟩] 100
      = ([⟨"1", 1, "a"⟩, ⟨"2", 2, "b"⟩] : List Conversation).map
          (fun x => if x.id = "2" then ⟨"2", 9, "upd"⟩ else x) :=
  ⟨by decide, by decide, by decide,
    svcSave_update_in_place 9 ⟨"2", 9, "upd"⟩ [⟨"1", 1, "a"⟩, ⟨"2", 2, "b"⟩] 100
      (by decide) (by decide) (by decide) (by decide) (by decide)⟩

/-- Claim C10, counterexample: on the aggregator model id
`"openrouter/meta-llama-3-70b-instruct"` the helpers-module resolver answers
`unknown` while the background worker's resolver answers `openrouter`. -/
theorem providers_disagree_on_openrouter :
    getProviderFromModel "openrouter/meta-llama-3-70b-instruct"
      ≠ bgGetProviderFromModel "openrouter/meta-llama-3-70b-instruct" := by
  decide

/-- Claim C10 (amended): the two resolvers agree on a model string exactly
when it carries a `gpt`/`claude`/`mistral` prefix or fails the background
worker's aggregator test; on prefix-free aggregator-pattern models the helpers
resolver answers `unknown` while the background resolver answers
`openrouter`. -/
theorem providers_agree_iff (model : String) :
    getProviderFromModel model = bgGetProviderFromModel model ↔
    (jsStartsWith model "gpt" || jsStartsWith model "claude" ||
      jsStartsWith model "mistral" || !openrouterCond model) = true := by
  unfold getProviderFromModel bgGetProviderFromModel
  cases hg : jsStartsWith model "gpt" <;>
    cases hc : jsStartsWith model "claude" <;>
      cases hm : jsStartsWith model "mistral" <;>
        cases ho : openrouterCond model <;>
          simp [hg, hc, hm, ho]

/-- Claim C6: `updateGlobalSettings` merges the credentials mapping key by
key — patching one provider's key sets exactly that entry and leaves every
other provider's stored key unchanged — while top-level fields present in the
partial update (theme, default model, context window shown here) are
overwritten. -/
theorem updateGlobalSettings_merges_credentials (current : GlobalSettings)
    (p q : Provider) (v : String) (patch : GlobalSettingsPatch)
    (hq : q ≠ p)
    (hpatch : patch.apiKeys = some (fun r => if r = p then some v else none)) :
    (updateGlobalSettings current patch).apiKeys p = v ∧
    (updateGlobalSettings current patch).apiKeys q = current.apiKeys q ∧
    (∀ t, patch.theme = some t → (updateGlobalSettings current patch).theme = t) ∧
    (∀ dm, patch.defaultModel = some dm →
      (updateGlobalSettings current patch).defaultModel = dm) ∧
    (∀ n, patch.contextWindow = some n →
      (updateGlobalSettings current patch).contextWindow = n) := by
  refine ⟨?_, ?_, ?_, ?_, ?_⟩
  · simp [updateGlobalSettings, saveGlobalSettings, hpatch]
  · simp [updateGlobalSettings, saveGlobalSettings, hpatch, hq]
  · intro t ht; simp [updateGlobalSettings, saveGlobalSettings, ht]
  · intro dm hdm; simp [updateGlobalSettings, saveGlobalSettings, hdm]
  · intro n hn; simp [updateGlobalSettings, saveGlobalSettings, hn]

/-- Claim C6 witness. -/
theorem updateGlobalSettings_merges_credentials_witness :
    (updateGlobalSettings DEFAULT_GLOBAL_SETTINGS
        { apiKeys := some (fun r => if r = Provider.anthropic then some "x" else none) }).apiKeys
        Provider.anthropic = "x" ∧
    (updateGlobalSettings DEFAULT_GLOBAL_SETTINGS
        { apiKeys := some (fun r => if r = Provider.anthropic then some "x" else none) }).apiKeys
        Provider.openai = "" ∧
    (updateGlobalSettings DEFAULT_GLOBAL_SETTINGS
        { apiKeys := some (fun r => if r = Provider.anthropic then some "x" else none) }).apiKeys
        Provider.mistral = "" :=
  ⟨(updateGlobalSettings_merges_credentials DEFAULT_GLOBAL_SETTINGS
      Provider.anthropic Provider.openai "x" _ (by decide) rfl).1,
   (updateGlobalSettings_merges_credentials DEFAULT_GLOBAL_SETTINGS
      Provider.anthropic Provider.openai "x" _ (by decide) rfl).2.1,
   (updateGlobalSettings_merges_credentials DEFAULT_GLOBAL_SETTINGS
      Provider.anthropic Provider.mistral "x" _ (by decide) rfl).2.1⟩

/-- Claim C7, counterexample: for provider `openai` and the non-null success
response `{choices: []}` — whose expected reply field is absent — the
extraction returns the empty string (it has no failure channel at all), so the
empty string is not reserved for a null response argument. -/
theorem extract_absent_field_returns_empty_nonnull :
    extractContentFromResponse
        (some { choices := some [], content := none }) Provider.openai = "" ∧
    (some ({ choices := some [], content := none } : ApiResponse))
      ≠ (none : Option ApiResponse) := by
  constructor <;> decide

/-- For every known provider, the extraction returns the empty string on
every success response whose expected reply field is absent. -/
theorem extract_absent (r : ApiResponse) (p : Provider)
    (hp : p ≠ Provider.unknown) (habs : replyFieldAbsent r p) :
    extractContentFromResponse (some r) p = "" := by
  cases p with
  | unknown => exact absurd rfl hp
  | anthropic =>
    simp only [replyFieldAbsent, anthropicReplyAbsent] at habs
    rcases habs with h | h | ⟨b, rest, h, hb⟩
    · simp [extractContentFromResponse, h]
    · simp [extractContentFromResponse, h]
    · simp [extractContentFromResponse, h, hb]
  | openai =>
    simp only [replyFieldAbsent, choicesReplyAbsent] at habs
    rcases habs with h | h | ⟨c, rest, h, hc⟩
    · simp [extractContentFromResponse, h]
    · simp [extractContentFromResponse, h]
    · rcases hc with hm | ⟨m, hm, hmc⟩
      · simp [extractContentFromResponse, h, hm]
      · simp [extractContentFromResponse, h, hm, hmc]
  | mistral =>
    simp only [replyFieldAbsent, choicesReplyAbsent] at habs
    rcases habs with h | h | ⟨c, rest, h, hc⟩
    · simp [extractContentFromResponse, h]
    · simp [extractContentFromResponse, h]
    · rcases hc with hm | ⟨m, hm, hmc⟩
      · simp [extractContentFromResponse, h, hm]
      · simp [extractContentFromResponse, h, hm, hmc]
  | openrouter =>
    simp only [replyFieldAbsent, choicesReplyAbsent] at habs
    rcases habs with h | h | ⟨c, rest, h, hc⟩
    · simp [extractContentFromResponse, h]
    · simp [extractContentFromResponse, h]
    · rcases hc with hm | ⟨m, hm, hmc⟩
      · simp [extractContentFromResponse, h, hm]
      · simp [extractContentFromResponse, h, hm, hmc]

/-- When the key check passes and the network delivers a success response
whose extraction is empty, the session (empty history, input `hi`) displays
the invalid-format error and appends no assistant message. -/
theorem session_invalid_on_empty_extract (model : String) (r2 : ApiResponse)
    (p : Provider)
    (hkey : getLLMResponseKeyCheck (fun _ => "sk-test")
      (if model = "" then "gpt-3.5-turbo" else model) = .ok p)
    (hext : extractContentFromResponse (some r2) (getProviderFromModel model) = "") :
    sendMessageAttempt (fun _ => "sk-test") model "" 0 ⟨[], false⟩ "hi"
        (fun _ => .ok r2)
      = (⟨[⟨Role.user, "hi"⟩], false⟩, [[⟨Role.user, "hi"⟩]],
          some "Invalid response format from API") := by
  have key : sendMessageAttempt (fun _ => "sk-test") model "" 0 ⟨[], false⟩ "hi"
      (fun _ => .ok r2)
      = (match getLLMResponseKeyCheck (fun _ => "sk-test")
            (if model = "" then "gpt-3.5-turbo" else model) with
         | .error e => (⟨[⟨Role.user, "hi"⟩], false⟩, ([] : List (List Message)), some e)
         | .ok _ =>
            if extractContentFromResponse (some r2) (getProviderFromModel model) = "" then
              (⟨[⟨Role.user, "hi"⟩], false⟩, [[⟨Role.user, "hi"⟩]],
                some "Invalid response format from API")
            else
              (⟨[⟨Role.user, "hi"⟩, ⟨Role.assistant,
                  extractContentFromResponse (some r2) (getProviderFromModel model)⟩],
                  false⟩,
                [[⟨Role.user, "hi"⟩]], (none : Option String))) := rfl
  rw [key, hkey]
  exact if_pos hext

/-- Claim C7 (amended): for every known provider and every success response
whose expected reply field is absent — in any of its shapes: missing or empty
`choices`, a choice without `message`, a message without `content`, and for
anthropic missing or empty `content` or a block without `text` — the
extraction returns the empty string, exactly as it does for a null response;
it surfaces no typed malformed-response failure itself. That failure is
raised one level up: for every such response delivered to a send routed to
any session-reachable provider (openai, anthropic, mistral), the session
displays `Invalid response format from API` and appends no assistant
message. -/
theorem extract_absent_field_empty_and_session_error
    (r : ApiResponse) (p : Provider) (hp : p ≠ Provider.unknown)
    (habs : replyFieldAbsent r p) :
    extractContentFromResponse (some r) p = "" ∧
    extractContentFromResponse (none : Option ApiResponse) p = "" ∧
    (∀ r2 : ApiResponse, replyFieldAbsent r2 Provider.openai →
      sendMessageAttempt (fun _ => "sk-test") "gpt-4" "" 0 ⟨[], false⟩ "hi"
          (fun _ => .ok r2)
        = (⟨[⟨Role.user, "hi"⟩], false⟩, [[⟨Role.user, "hi"⟩]],
            some "Invalid response format from API")) ∧
    (∀ r2 : ApiResponse, replyFieldAbsent r2 Provider.anthropic →
      sendMessageAttempt (fun _ => "sk-test") "claude-3-opus" "" 0 ⟨[], false⟩ "hi"
          (fun _ => .ok r2)
        = (⟨[⟨Role.user, "hi"⟩], false⟩, [[⟨Role.user, "hi"⟩]],
            some "Invalid response format from API")) ∧
    (∀ r2 : ApiResponse, replyFieldAbsent r2 Provider.mistral →
      sendMessageAttempt (fun _ => "sk-test") "mistral-small" "" 0 ⟨[], false⟩ "hi"
          (fun _ => .ok r2)
        = (⟨[⟨Role.user, "hi"⟩], false⟩, [[⟨Role.user, "hi"⟩]],
            some "Invalid response format from API")) :=
  ⟨extract_absent r p hp habs,
   rfl,
   fun r2 h2 => session_invalid_on_empty_extract "gpt-4" r2 Provider.openai rfl
     (extract_absent r2 Provider.openai (by decide) h2),
   fun r2 h2 => session_invalid_on_empty_extract "claude-3-opus" r2 Provider.anthropic rfl
     (extract_absent r2 Provider.anthropic (by decide) h2),
   fun r2 h2 => session_invalid_on_empty_extract "mistral-small" r2 Provider.mistral rfl
     (extract_absent r2 Provider.mistral (by decide) h2)⟩

/-- Claim C7 witness. -/
theorem extract_absent_field_empty_and_session_error_witness :
    extractContentFromResponse
        (some { choices := some [{ message := some { content := none } }], content := none })
        Provider.openai = "" ∧
    extractContentFromResponse (none : Option ApiResponse) Provider.openai = "" ∧
    (∀ r2 : ApiResponse, replyFieldAbsent r2 Provider.openai →
      sendMessageAttempt (fun _ => "sk-test") "gpt-4" "" 0 ⟨[], false⟩ "hi"
          (fun _ => .ok r2)
        = (⟨[⟨Role.user, "hi"⟩], false⟩, [[⟨Role.user, "hi"⟩]],
            some "Invalid response format from API")) ∧
    (∀ r2 : ApiResponse, replyFieldAbsent r2 Provider.anthropic →
      sendMessageAttempt (fun _ => "sk-test") "claude-3-opus" "" 0 ⟨[], false⟩ "hi"
          (fun _ => .ok r2)
        = (⟨[⟨Role.user, "hi"⟩], false⟩, [[⟨Role.user, "hi"⟩]],
            some "Invalid response format from API")) ∧
    (∀ r2 : ApiResponse, replyFieldAbsent r2 Provider.mistral →
      sendMessageAttempt (fun _ => "sk-test") "mistral-small" "" 0 ⟨[], false⟩ "hi"
          (fun _ => .ok r2)
        = (⟨[⟨Role.user, "hi"⟩], false⟩, [[⟨Role.user, "hi"⟩]],
            some "Invalid response format from API")) :=
  extract_absent_field_empty_and_session_error
    { choices := some [{ message := some { content := none } }], content := none }
    Provider.openai (by decide)
    (Or.inr (Or.inr ⟨{ message := some { content := none } }, [], rfl,
      Or.inr ⟨{ content := none }, rfl, rfl⟩⟩))

/-- Claim C9: the `!userMessage || this.isProcessing` guard makes a send
during an in-flight send, or with whitespace-only input, a strict no-op
(state untouched, no request issued); resolution always clears
`isProcessing` (the `finally` block), after which a send of non-blank input
proceeds, issuing exactly one request and marking the session in-flight. -/
theorem sendMessage_single_in_flight (systemPrompt : String) (contextLimit : Nat)
    (st : ChatState) (input : String) (outcome : Except String String) :
    (st.isProcessing = true → sendStart systemPrompt contextLimit st input = (st, none)) ∧
    (jsTrim input = "" → sendStart systemPrompt contextLimit st input = (st, none)) ∧
    ((sendResolve st outcome).isProcessing = false) ∧
    (st.isProcessing = false → jsTrim input ≠ "" →
      sendStart systemPrompt contextLimit st input
        = ({ conversation := st.conversation ++ [⟨Role.user, jsTrim input⟩],
             isProcessing := true },
           some (buildRequestMessages systemPrompt st.conversation contextLimit
             (jsTrim input)))) := by
  refine ⟨?_, ?_, ?_, ?_⟩
  · intro h; simp [sendStart, h]
  · intro h; simp [sendStart, h]
  · cases outcome <;> simp [sendResolve]
  · intro h1 h2; simp [sendStart, h1, h2]

/-- Claim C9 witness. -/
theorem sendMessage_single_in_flight_witness :
    (sendStart "" 0 ⟨[], true⟩ "hi" = (⟨[], true⟩, none)) ∧
    (sendStart "" 0 ⟨[], false⟩ "  " = (⟨[], false⟩, none)) ∧
    ((sendResolve ⟨[], true⟩ (Except.error "boom")).isProcessing = false) ∧
    (sendStart "" 0 ⟨[], false⟩ "hi"
      = (⟨[⟨Role.user, "hi"⟩], true⟩, some (buildRequestMessages "" [] 0 "hi"))) :=
  ⟨(sendMessage_single_in_flight "" 0 ⟨[], true⟩ "hi" (Except.error "boom")).1 rfl,
   (sendMessage_single_in_flight "" 0 ⟨[], false⟩ "  " (Except.error "boom")).2.1 (by decide),
   (sendMessage_single_in_flight "" 0 ⟨[], true⟩ "hi" (Except.error "boom")).2.2.1,
   (sendMessage_single_in_flight "" 0 ⟨[], false⟩ "hi" (Except.error "boom")).2.2.2 rfl
     (by decide)⟩

/-- Claim C1: for every history consisting of an optional leading system
message followed by non-system messages, and every limit > 0, the trim keeps
the leading system message without counting it against the limit, keeps the
most recent `limit` non-system messages in order, and re-prepends the system
message. Moreover, in the scenario with context limit 2, a system message
present, and 6 non-system history messages, the single request issued to the
provider is exactly the system message, the last 2 history messages, and the
new user message — 4 messages in all. -/
theorem trim_keeps_leading_system (sysContent : Option String)
    (rest : List Message) (limit : Nat)
    (hrest : ∀ m ∈ rest, m.role ≠ Role.system) (hlim : 0 < limit) :
    trimHistory ((sysContent.map (fun s => Message.mk Role.system s)).toList ++ rest) limit
      = (sysContent.map (fun s => Message.mk Role.system s)).toList ++ takeLast limit rest
    ∧ (sendMessageAttempt (fun _ => "k") "gpt-4" "You are a helpful assistant." 2
        ⟨[⟨Role.user, "q1"⟩, ⟨Role.assistant, "a1"⟩, ⟨Role.user, "q2"⟩,
          ⟨Role.assistant, "a2"⟩, ⟨Role.user, "q3"⟩, ⟨Role.assistant, "a3"⟩], false⟩
        "What about Lean?"
        (fun _ => .ok { choices := some [{ message := some { content := some "Sure." } }] })).2.1
      = [[⟨Role.system, "You are a helpful assistant."⟩, ⟨Role.user, "q3"⟩,
          ⟨Role.assistant, "a3"⟩, ⟨Role.user, "What about Lean?"⟩]] := by
  constructor
  · cases sysContent with
    | none =>
      simp only [Option.map_none', Option.toList_none, List.nil_append]
      by_cases hlen : limit < rest.length
      · have hfind : rest.find? (fun m => decide (m.role = Role.system)) = none := by
          rw [List.find?_eq_none]
          intro x hx
          simpa using hrest x hx
        have hfilter : rest.filter (fun m => !decide (m.role = Role.system)) = rest := by
          rw [List.filter_eq_self]
          intro a ha
          simpa using hrest a ha
        rw [trimHistory_pos_none rest limit hlim hlen hfind, hfilter]
      · exact (trimHistory_noop rest limit (fun hc => hlen hc.2)).trans
          (takeLast_of_length_le (Nat.le_of_not_lt hlen)).symm
    | some s =>
      simp only [Option.map_some', Option.toList_some, List.singleton_append]
      by_cases hlen : limit < rest.length + 1
      · have hfind : (Message.mk Role.system s :: rest).find?
            (fun m => decide (m.role = Role.system)) = some (Message.mk Role.system s) :=
          List.find?_cons_of_pos _ (by simp)
        have hfilter : (Message.mk Role.system s :: rest).filter
            (fun m => !decide (m.role = Role.system)) = rest := by
          rw [List.filter_cons]
          simp only [decide_True, Bool.not_true, Bool.false_eq_true, if_false]
          rw [List.filter_eq_self]
          intro a ha
          simpa using hrest a ha
        rw [trimHistory_pos_some _ limit _ hlim (by simpa using hlen) hfind, hfilter]
      · have hle : rest.length ≤ limit := by omega
        have hnoop : ¬ (0 < limit ∧ limit < (Message.mk Role.system s :: rest).length) := by
          simp only [List.length_cons]
          omega
        rw [trimHistory_noop _ limit hnoop, takeLast_of_length_le hle]
  · decide

/-- Claim C1 witness. -/
theorem trim_keeps_leading_system_witness :
    (∀ m ∈ ([⟨Role.user, "u1"⟩, ⟨Role.assistant, "v1"⟩, ⟨Role.user, "u2"⟩] : List Message),
      m.role ≠ Role.system) ∧
    trimHistory (((some "sys").map (fun s => Message.mk Role.system s)).toList ++
        [⟨Role.user, "u1"⟩, ⟨Role.assistant, "v1"⟩, ⟨Role.user, "u2"⟩]) 2
      = ((some "sys").map (fun s => Message.mk Role.system s)).toList ++
          takeLast 2 [⟨Role.user, "u1"⟩, ⟨Role.assistant, "v1"⟩, ⟨Role.user, "u2"⟩] :=
  ⟨by decide,
   (trim_keeps_leading_system (some "sys")
      [⟨Role.user, "u1"⟩, ⟨Role.assistant, "v1"⟩, ⟨Role.user, "u2"⟩] 2
      (by decide) (by decide)).1⟩

/-- Claim C8: the context-window trim is idempotent — re-trimming its own
output with the same limit returns it unchanged, for every history (with or
without a retained and re-prepended system message) and every limit. -/
theorem trimHistory_idempotent (history : List Message) (limit : Nat) :
    trimHistory (trimHistory history limit) limit = trimHistory history limit := by
  by_cases hcond : 0 < limit ∧ limit < history.length
  · obtain ⟨hl0, hlen⟩ := hcond
    have htlen : (takeLast limit
        (history.filter (fun x => !decide (x.role = Role.system)))).length ≤ limit :=
      takeLast_length_le _ _
    have htall : ∀ x ∈ takeLast limit
        (history.filter (fun x => !decide (x.role = Role.system))),
        x.role ≠ Role.system := by
      intro x hx
      have hx' : x ∈ history.filter (fun x => !decide (x.role = Role.system)) :=
        List.drop_subset _ _ hx
      have := (List.mem_filter.mp hx').2
      simpa using this
    cases hfind : history.find? (fun m => decide (m.role = Role.system)) with
    | none =>
      rw [trimHistory_pos_none history limit hl0 hlen hfind]
      exact trimHistory_noop _ limit
        (fun hc => absurd hc.2 (Nat.not_lt.mpr htlen))
    | some m =>
      have hm_role : m.role = Role.system := by
        have := List.find?_some hfind
        simpa using this
      rw [trimHistory_pos_some history limit m hl0 hlen hfind]
      generalize hT : takeLast limit
        (history.filter (fun x => !decide (x.role = Role.system))) = t at htlen htall
      by_cases h2 : limit < t.length + 1
      · have hteq : t.length = limit := by omega
        have hfind2 : (m :: t).find? (fun x => decide (x.role = Role.system)) = some m :=
          List.find?_cons_of_pos _ (by simp [hm_role])
        have hfilter2 : (m :: t).filter (fun x => !decide (x.role = Role.system)) = t := by
          rw [List.filter_cons]
          simp only [hm_role, decide_True, Bool.not_true, Bool.false_eq_true, if_false]
          rw [List.filter_eq_self]
          intro a ha
          simpa using htall a ha
        rw [trimHistory_pos_some (m :: t) limit m hl0 (by simpa using h2) hfind2,
          hfilter2, takeLast_of_length_le (Nat.le_of_eq hteq)]
      · exact trimHistory_noop (m :: t) limit
          (fun hc => h2 (by simpa using hc.2))
  · have h1 : trimHistory history limit = history := trimHistory_noop history limit hcond
    rw [h1]
    exact h1

/-- Claim C2 witness. -/
theorem send_missing_key_fails_pre_network_witness :
    sendMessageAttempt (fun _ => "") "gpt-4" "" 0 ⟨[], false⟩ "hi"
        (fun _ => .error "net")
      = (⟨[⟨Role.user, "hi"⟩], false⟩, [],
          some "API key not configured for openai. Please check settings.") :=
  send_missing_key_fails_pre_network (fun _ => .error "net")

/-- Claim C4 witness. -/
theorem svcSave_length_le_cap_witness :
    (svcSaveConversation 9 ⟨"3", 9, "c"⟩ [⟨"1", 1, "a"⟩, ⟨"2", 2, "b"⟩] 2).length
      ≤ (if (2 : Nat) = 0 then 100 else 2) :=
  svcSave_length_le_cap 9 ⟨"3", 9, "c"⟩ [⟨"1", 1, "a"⟩, ⟨"2", 2, "b"⟩] 2

/-- Claim C8 witness. -/
theorem trimHistory_idempotent_witness :
    trimHistory (trimHistory [⟨Role.system, "s"⟩, ⟨Role.user, "a"⟩, ⟨Role.user, "b"⟩,
        ⟨Role.user, "c"⟩] 2) 2
      = trimHistory [⟨Role.system, "s"⟩, ⟨Role.user, "a"⟩, ⟨Role.user, "b"⟩,
          ⟨Role.user, "c"⟩] 2 :=
  trimHistory_idempotent [⟨Role.system, "s"⟩, ⟨Role.user, "a"⟩, ⟨Role.user, "b"⟩,
    ⟨Role.user, "c"⟩] 2

/-- Claim C10 witness. -/
theorem providers_agree_iff_witness :
    (getProviderFromModel "gpt-4" = bgGetProviderFromModel "gpt-4" ↔
      (jsStartsWith "gpt-4" "gpt" || jsStartsWith "gpt-4" "claude" ||
        jsStartsWith "gpt-4" "mistral" || !openrouterCond "gpt-4") = true) :=
  providers_agree_iff "gpt-4"

end Sololom
